import Mathlib

/-!
Verification development for the webrender repository (devopsext/webrender).

The embedding models the browser rendering session orchestrator:

* `ActionStep` — the automation steps a pipeline is made of (chromedp actions
  in the source: `network.Enable`, `network.SetExtraHTTPHeaders`,
  `chromedp.Navigate`, `chromedp.Evaluate`, `chromedp.Sleep`, `chromedp.Stop`,
  `chromedp.OuterHTML`, `chromedp.FullScreenshot` / `chromedp.CaptureScreenshot`,
  `page.PrintToPDF`).
* `ChromeBrowser.buildTasks` — browser/chrome.go `(c *ChromeBrowser) buildTasks`.
* `ChromeProcessor.buildTasks` — processor (duplicated variant)
  `(p *ChromeProcessor) buildTasks`.
* `ChromeBrowser.Image` — browser/chrome.go `(c *ChromeBrowser) Image`,
  with the chromedp runs abstracted as an oracle `run` and the launch
  `chromedp.Run(browserCtx)` as an optional `launchErr`; the function also
  returns the trace of tab-scoped attempts it opened (pipeline and deadline
  seconds of each), so that the timeout-fallback policy can be stated.
* `ImageProcessor.chromeImageOptions` — the option-construction part of
  processor/image.go `(p *ImageProcessor) chromeImage` (lines 55-92).
* `ImageProcessor.selectEngine` — the engine-dispatch step of
  processor/image.go `HandleHttpRequest` (lines 137-147).

Machine integers of the Go source (`int`) are modelled as `Int`; the claims
proved here never exercise overflow. Go maps are modelled as association
lists; the only observations the source makes of `HeadersMap` are `len(m) > 0`
and passing the whole map to one step, both of which the list model preserves.
-/

/-- One automation step of a pipeline, as built by `buildTasks` in the source.
Each constructor corresponds to one chromedp action appended by the builder. -/
inductive ActionStep where
  | enableHeaderInterception : ActionStep
  | setHeaders (headers : List (String × String)) : ActionStep
  | navigate (url : String) : ActionStep
  | evaluateScript (src : String) : ActionStep
  | sleep (seconds : Int) : ActionStep
  | stopLoading : ActionStep
  | captureDOM : ActionStep
  | captureScreenshot (fullPage : Bool) : ActionStep
  | capturePDF (displayHeaderFooter : Bool) : ActionStep
deriving DecidableEq, Repr

/-- Output-capture steps: a screenshot or a PDF print. -/
def ActionStep.isOutputCapture : ActionStep → Bool
  | .captureScreenshot _ => true
  | .capturePDF _ => true
  | _ => false

/-- browser/chrome.go `ChromeBrowserOptions`. -/
structure ChromeBrowserOptions where
  Width : Int
  Height : Int
  UserAgent : String
  JsCode : String
  Timeout : Int
  Delay : Int
  FullPage : Bool
  Path : String
  Proxy : String
  Headers : List String
  HeadersMap : List (String × String)
  ScreenshotCodes : List Int
  AsPDF : Bool
deriving DecidableEq, Repr

/-- browser/chrome.go `ChromeBrowser` (the logger and meter fields carry no
data the modelled functions read). -/
structure ChromeBrowser where
  options : ChromeBrowserOptions
deriving DecidableEq, Repr

/-- browser/chrome.go `(c *ChromeBrowser) buildTasks`: builds the chromedp
tasks slice for one attempt. `network.Enable()` and
`network.SetExtraHTTPHeaders` become `enableHeaderInterception` and
`setHeaders`; `chromedp.OuterHTML(":root", dom, chromedp.ByQueryAll)` becomes
`captureDOM`; the PDF action uses `WithDisplayHeaderFooter(true)`. -/
def ChromeBrowser.buildTasks (c : ChromeBrowser) (url : String)
    (doNavigate : Bool) : List ActionStep :=
  let actions : List ActionStep := []
  let actions :=
    if c.options.HeadersMap.length > 0 then
      actions ++ [ActionStep.enableHeaderInterception,
                  ActionStep.setHeaders c.options.HeadersMap]
    else actions
  let actions :=
    if doNavigate then
      let actions := actions ++ [ActionStep.navigate url]
      let actions :=
        if c.options.JsCode.length > 0 then
          actions ++ [ActionStep.evaluateScript c.options.JsCode]
        else actions
      let actions :=
        if c.options.Delay > 0 then
          actions ++ [ActionStep.sleep c.options.Delay]
        else actions
      actions ++ [ActionStep.stopLoading]
    else actions
  let actions := actions ++ [ActionStep.captureDOM]
  if c.options.AsPDF then
    actions ++ [ActionStep.capturePDF true]
  else if c.options.FullPage then
    actions ++ [ActionStep.captureScreenshot true]
  else
    actions ++ [ActionStep.captureScreenshot false]

/-- processor `ChromeProcessorOptions` (the duplicated variant of the same
record in processor code). -/
structure ChromeProcessorOptions where
  Width : Int
  Height : Int
  UserAgent : String
  JsCode : String
  Timeout : Int
  Delay : Int
  FullPage : Bool
  Path : String
  Proxy : String
  Headers : List String
  HeadersMap : List (String × String)
  ScreenshotCodes : List Int
  AsPDF : Bool
deriving DecidableEq, Repr

/-- processor `ChromeProcessor`. -/
structure ChromeProcessor where
  options : ChromeProcessorOptions
deriving DecidableEq, Repr

/-- processor `(p *ChromeProcessor) buildTasks`, the duplicated variant of
`ChromeBrowser.buildTasks`, translated from its own source text. -/
def ChromeProcessor.buildTasks (p : ChromeProcessor) (url : String)
    (doNavigate : Bool) : List ActionStep :=
  let actions : List ActionStep := []
  let actions :=
    if p.options.HeadersMap.length > 0 then
      actions ++ [ActionStep.enableHeaderInterception,
                  ActionStep.setHeaders p.options.HeadersMap]
    else actions
  let actions :=
    if doNavigate then
      let actions := actions ++ [ActionStep.navigate url]
      let actions :=
        if p.options.JsCode.length > 0 then
          actions ++ [ActionStep.evaluateScript p.options.JsCode]
        else actions
      let actions :=
        if p.options.Delay > 0 then
          actions ++ [ActionStep.sleep p.options.Delay]
        else actions
      actions ++ [ActionStep.stopLoading]
    else actions
  let actions := actions ++ [ActionStep.captureDOM]
  if p.options.AsPDF then
    actions ++ [ActionStep.capturePDF true]
  else if p.options.FullPage then
    actions ++ [ActionStep.captureScreenshot true]
  else
    actions ++ [ActionStep.captureScreenshot false]

/-- The header-interception block of a pipeline (helper for stating the
decomposition of `buildTasks`). -/
def headerBlock (o : ChromeBrowserOptions) : List ActionStep :=
  if o.HeadersMap.length > 0 then
    [ActionStep.enableHeaderInterception, ActionStep.setHeaders o.HeadersMap]
  else []

/-- The navigation block of a pipeline (helper for stating the decomposition
of `buildTasks`). -/
def navBlock (o : ChromeBrowserOptions) (url : String) (doNavigate : Bool) :
    List ActionStep :=
  if doNavigate then
    [ActionStep.navigate url]
      ++ (if o.JsCode.length > 0 then [ActionStep.evaluateScript o.JsCode] else [])
      ++ (if o.Delay > 0 then [ActionStep.sleep o.Delay] else [])
      ++ [ActionStep.stopLoading]
  else []

/-- The single output-capture step a pipeline ends with (helper for stating
the decomposition of `buildTasks`). -/
def outputStep (o : ChromeBrowserOptions) : ActionStep :=
  if o.AsPDF then ActionStep.capturePDF true
  else if o.FullPage then ActionStep.captureScreenshot true
  else ActionStep.captureScreenshot false

/-- Decomposition of the browser-side builder: header block, then navigation
block, then the DOM capture, then exactly one output step. -/
theorem ChromeBrowser.buildTasks_eq (c : ChromeBrowser) (url : String)
    (doNavigate : Bool) :
    c.buildTasks url doNavigate =
      headerBlock c.options ++ navBlock c.options url doNavigate
        ++ [ActionStep.captureDOM] ++ [outputStep c.options] := by
  unfold ChromeBrowser.buildTasks headerBlock navBlock outputStep
  split_ifs <;> simp

/-- Errors a chromedp run may return, as the source observes them: the only
inspection the source performs is `errors.Is(err, context.DeadlineExceeded)`,
so an error is either the context deadline-exceeded error or any other error
(tagged by an opaque code). -/
inductive RunError where
  | deadlineExceeded : RunError
  | other (code : Nat) : RunError
deriving DecidableEq, Repr

/-- Models `errors.Is(err, context.DeadlineExceeded)` on a non-nil error. -/
def RunError.isDeadlineExceeded : RunError → Bool
  | .deadlineExceeded => true
  | .other _ => false

/-- browser/chrome.go `ChromeBrowserImage`: captured output bytes and the DOM
snapshot, the record `chromedp.Run` writes into through the two pointers. -/
structure ChromeBrowserImage where
  Data : List Nat
  DOM : String
deriving DecidableEq, Repr

/-- One tab-scoped capture attempt as opened by `Image`: the pipeline bound to
the tab context and the deadline seconds of its `context.WithTimeout`. -/
structure AttemptRecord where
  tasks : List ActionStep
  timeoutSeconds : Int
deriving DecidableEq, Repr

/-- The behaviour of `chromedp.Run(tabCtx, tasks)` for one attempt, abstracted:
given the pipeline, the deadline seconds of the tab context, and the current
contents of the result record, it returns the updated record and an optional
error. -/
abbrev RunOracle :=
  List ActionStep → Int → ChromeBrowserImage → ChromeBrowserImage × Option RunError

/-- browser/chrome.go `(c *ChromeBrowser) Image` (lines 93-229), with the
browser-session side effects abstracted: `launchErr` is the result of the
initial `chromedp.Run(browserCtx)` liveness run, and `run` stands for
`chromedp.Run` on a tab context. Besides the source's return value
(`*ChromeBrowserImage, error`, modelled as `Except`), the embedding also
returns the trace of tab attempts opened, so the timeout-fallback policy is
observable: the primary attempt runs `buildTasks url true` under a
`Timeout`-second deadline; only a deadline-exceeded error opens one fallback
attempt with a fresh `Timeout`-second deadline running `buildTasks url false`,
and the fallback's own outcome replaces the error. -/
def ChromeBrowser.Image (c : ChromeBrowser) (url : String)
    (launchErr : Option RunError) (run : RunOracle) :
    Except RunError ChromeBrowserImage × List AttemptRecord :=
  let r : ChromeBrowserImage := { Data := [], DOM := "" }
  match launchErr with
  | some e => (Except.error e, [])
  | none =>
    let primary := c.buildTasks url true
    match run primary c.options.Timeout r with
    | (r, some e) =>
      if e.isDeadlineExceeded then
        let fallback := c.buildTasks url false
        match run fallback c.options.Timeout r with
        | (r, none) =>
          (Except.ok r,
           [⟨primary, c.options.Timeout⟩, ⟨fallback, c.options.Timeout⟩])
        | (_, some e2) =>
          (Except.error e2,
           [⟨primary, c.options.Timeout⟩, ⟨fallback, c.options.Timeout⟩])
      else
        (Except.error e, [⟨primary, c.options.Timeout⟩])
    | (r, none) => (Except.ok r, [⟨primary, c.options.Timeout⟩])

/-- processor/image.go `ImageProcessorRequest`, the form-decoded HTTP request.
Missing form fields decode to Go zero values (`0`, `""`, `false`, empty map).
The record has no full-page and no script field. -/
structure ImageProcessorRequest where
  URL : String
  Kind : String
  Width : Int
  Height : Int
  UserAgent : String
  Timeout : Int
  Delay : Int
  AsPDF : Bool
  Headers : List (String × String)
deriving DecidableEq, Repr

/-- processor/image.go `ImageProcessorOptions`, the process-wide configured
defaults (populated from environment variables in cmd/root.go). -/
structure ImageProcessorOptions where
  Width : Int
  Height : Int
  UserAgent : String
  Timeout : Int
  Delay : Int
  BrowserPath : String
  BrowserKind : String
  AsPDF : Bool
deriving DecidableEq, Repr

/-- processor/image.go `ImageProcessor` (observability fields omitted: the
modelled functions read only `options`). -/
structure ImageProcessor where
  options : ImageProcessorOptions
deriving DecidableEq, Repr

/-- Models `utils.IsEmpty` (github.com/devopsext/utils, an external
dependency) on a string: true when the string is empty after trimming
whitespace. -/
def isEmptyString (s : String) : Bool := s.trim.isEmpty

/-- processor/image.go `(p *ImageProcessor) chromeImage`, lines 55-92: the
construction of the `ChromeBrowserOptions` record from the request and the
configured defaults. Zero-valued `Width`, `Height`, `Timeout`, `Delay` and an
empty `UserAgent` fall back to the configured defaults; `FullPage` is the
literal `true`; `AsPDF` and `Headers` are taken from the request; the fields
the Go struct literal omits (`JsCode`, `Proxy`, `Headers` list,
`ScreenshotCodes`) are Go zero values. -/
def ImageProcessor.chromeImageOptions (p : ImageProcessor)
    (r : ImageProcessorRequest) : ChromeBrowserOptions :=
  let width := if r.Width = 0 then p.options.Width else r.Width
  let height := if r.Height = 0 then p.options.Height else r.Height
  let userAgent := if isEmptyString r.UserAgent then p.options.UserAgent
    else r.UserAgent
  let timeout := if r.Timeout = 0 then p.options.Timeout else r.Timeout
  let delay := if r.Delay = 0 then p.options.Delay else r.Delay
  { Width := width
    Height := height
    UserAgent := userAgent
    JsCode := ""
    Timeout := timeout
    Delay := delay
    FullPage := true
    Path := p.options.BrowserPath
    Proxy := ""
    Headers := []
    HeadersMap := r.Headers
    ScreenshotCodes := []
    AsPDF := r.AsPDF }

/-- The rendering engines `HandleHttpRequest` can dispatch to; the source's
switch has only a default branch, which calls `chromeImage`. -/
inductive Engine where
  | chrome : Engine
deriving DecidableEq, Repr

/-- processor/image.go `HandleHttpRequest`, lines 137-147: the engine
dispatch. An empty `kind` is replaced by the literal string for the default
engine, and the switch over the resulting value has only a default branch, so
every value selects the chrome engine and no value is rejected. -/
def ImageProcessor.selectEngine (r : ImageProcessorRequest) : Engine :=
  let browser := if isEmptyString r.Kind then "chrome" else r.Kind
  match browser with
  | _ => Engine.chrome

/-- The header block contains no output-capture step. -/
theorem headerBlock_countP_isOutputCapture (o : ChromeBrowserOptions) :
    (headerBlock o).countP (fun s => s.isOutputCapture) = 0 := by
  unfold headerBlock
  split_ifs <;> simp [ActionStep.isOutputCapture]

/-- The navigation block contains no output-capture step. -/
theorem navBlock_countP_isOutputCapture (o : ChromeBrowserOptions)
    (url : String) (doNavigate : Bool) :
    (navBlock o url doNavigate).countP (fun s => s.isOutputCapture) = 0 := by
  unfold navBlock
  split_ifs <;> simp [ActionStep.isOutputCapture]

/-- C2: for every options record and navigate flag, the built pipeline ends
with exactly one output-capture step chosen by this precedence: if `AsPDF` is
true the final step is `capturePDF` with header/footer rendering enabled,
regardless of `FullPage`; otherwise if `FullPage` is true the final step is a
full-page screenshot; otherwise the final step is a viewport-only
screenshot. -/
theorem buildTasks_ends_with_one_output_capture (c : ChromeBrowser)
    (url : String) (nav : Bool) :
    (c.buildTasks url nav).getLast? =
      some (if c.options.AsPDF then ActionStep.capturePDF true
            else if c.options.FullPage then ActionStep.captureScreenshot true
            else ActionStep.captureScreenshot false)
    ∧ (c.buildTasks url nav).countP (fun s => s.isOutputCapture) = 1 := by
  rw [ChromeBrowser.buildTasks_eq]
  constructor
  · rw [List.getLast?_concat]
    unfold outputStep
    split_ifs <;> rfl
  · rw [List.countP_append, List.countP_append, List.countP_append,
      headerBlock_countP_isOutputCapture, navBlock_countP_isOutputCapture]
    unfold outputStep
    split_ifs <;> simp [ActionStep.isOutputCapture]

/-- C3: if navigate is true the pipeline contains, after the header block,
`navigate url`, then `evaluateScript` only when a script is provided, then
`sleep` only when the delay is positive, then `stopLoading`; if navigate is
false none of those steps appear; and in both cases `captureDOM` appears
immediately before the single output-capture step. -/
theorem buildTasks_navigation_block_and_dom (c : ChromeBrowser)
    (url : String) (nav : Bool) :
    (nav = true →
      c.buildTasks url nav =
        headerBlock c.options
          ++ ([ActionStep.navigate url]
              ++ (if c.options.JsCode.length > 0 then
                    [ActionStep.evaluateScript c.options.JsCode] else [])
              ++ (if c.options.Delay > 0 then
                    [ActionStep.sleep c.options.Delay] else [])
              ++ [ActionStep.stopLoading])
          ++ [ActionStep.captureDOM, outputStep c.options])
    ∧ (nav = false →
        (∀ u, ActionStep.navigate u ∉ c.buildTasks url nav)
        ∧ (∀ s, ActionStep.evaluateScript s ∉ c.buildTasks url nav)
        ∧ (∀ d, ActionStep.sleep d ∉ c.buildTasks url nav)
        ∧ ActionStep.stopLoading ∉ c.buildTasks url nav)
    ∧ ∃ pre, c.buildTasks url nav = pre ++ [ActionStep.captureDOM, outputStep c.options]
        ∧ (outputStep c.options).isOutputCapture = true := by
  refine ⟨?_, ?_, ?_⟩
  · intro h
    subst h
    rw [ChromeBrowser.buildTasks_eq]
    unfold navBlock
    simp
  · intro h
    subst h
    rw [ChromeBrowser.buildTasks_eq]
    unfold headerBlock navBlock outputStep
    split_ifs <;> simp_all
  · refine ⟨headerBlock c.options ++ navBlock c.options url nav, ?_, ?_⟩
    · rw [ChromeBrowser.buildTasks_eq]
      simp
    · unfold outputStep ActionStep.isOutputCapture
      split_ifs <;> rfl

/-- C4: if the headers map is non-empty the pipeline begins with
`enableHeaderInterception` followed by `setHeaders` as its first two steps; if
the headers map is empty, no header-interception step appears at all. -/
theorem buildTasks_header_steps (c : ChromeBrowser) (url : String)
    (nav : Bool) :
    (c.options.HeadersMap ≠ [] →
      (c.buildTasks url nav).take 2 =
        [ActionStep.enableHeaderInterception,
         ActionStep.setHeaders c.options.HeadersMap])
    ∧ (c.options.HeadersMap = [] →
        ActionStep.enableHeaderInterception ∉ c.buildTasks url nav
        ∧ ∀ h, ActionStep.setHeaders h ∉ c.buildTasks url nav) := by
  constructor
  · intro h
    rw [ChromeBrowser.buildTasks_eq]
    unfold headerBlock
    rw [if_pos (by simpa [List.length_pos] using h)]
    rfl
  · intro h
    rw [ChromeBrowser.buildTasks_eq]
    unfold headerBlock navBlock outputStep
    rw [if_neg (by simp [h])]
    split_ifs <;> simp

/-- C8: the duplicated pipeline builders are equivalent: for equal values of
every option field either builder reads (headers map, script, delay, asPDF,
fullPage) and the same url and navigate flag, the two builders produce the
same ordered step sequence. -/
theorem buildTasks_duplicates_agree (po : ChromeProcessorOptions)
    (bo : ChromeBrowserOptions)
    (hH : po.HeadersMap = bo.HeadersMap) (hJ : po.JsCode = bo.JsCode)
    (hD : po.Delay = bo.Delay) (hP : po.AsPDF = bo.AsPDF)
    (hF : po.FullPage = bo.FullPage) (url : String) (nav : Bool) :
    ChromeProcessor.buildTasks ⟨po⟩ url nav =
      ChromeBrowser.buildTasks ⟨bo⟩ url nav := by
  unfold ChromeProcessor.buildTasks ChromeBrowser.buildTasks
  simp only [hH, hJ, hD, hP, hF]

/-- C9: the public image-processor interface constructs the browser options
with the full-page flag unconditionally true (the request record has no
full-page field), so for every request with `AsPDF = false` the built pipeline
ends with the full-page screenshot step, and the viewport-only screenshot step
is unreachable through this interface for any request. -/
theorem chromeImage_fullPage_always_true (p : ImageProcessor)
    (r : ImageProcessorRequest) (url : String) (nav : Bool) :
    (p.chromeImageOptions r).FullPage = true
    ∧ (r.AsPDF = false →
        (ChromeBrowser.buildTasks ⟨p.chromeImageOptions r⟩ url nav).getLast? =
          some (ActionStep.captureScreenshot true))
    ∧ ActionStep.captureScreenshot false ∉
        ChromeBrowser.buildTasks ⟨p.chromeImageOptions r⟩ url nav := by
  refine ⟨rfl, ?_, ?_⟩
  · intro h
    rw [ChromeBrowser.buildTasks_eq, List.getLast?_concat]
    unfold outputStep
    simp [ImageProcessor.chromeImageOptions, h]
  · rw [ChromeBrowser.buildTasks_eq]
    unfold headerBlock navBlock outputStep
    split_ifs <;> simp_all [ImageProcessor.chromeImageOptions]

/-- C10: the public image-processor interface never sets the injected-script
option (the decoded request has no script field and the option construction
leaves `JsCode` empty), so the pipeline built for such a request contains no
`evaluateScript` step. -/
theorem chromeImage_no_script_step (p : ImageProcessor)
    (r : ImageProcessorRequest) (url : String) (nav : Bool) :
    (p.chromeImageOptions r).JsCode = ""
    ∧ ∀ s, ActionStep.evaluateScript s ∉
        ChromeBrowser.buildTasks ⟨p.chromeImageOptions r⟩ url nav := by
  refine ⟨rfl, fun s => ?_⟩
  rw [ChromeBrowser.buildTasks_eq]
  unfold headerBlock navBlock outputStep
  split_ifs <;> simp_all [ImageProcessor.chromeImageOptions]

/-- C7: every value of the `kind` field, including empty and unrecognized
values, routes the request to the default chrome engine; the dispatch is a
total function of the kind value and has no error outcome. -/
theorem selectEngine_always_chrome (r : ImageProcessorRequest) :
    ImageProcessor.selectEngine r = Engine.chrome := rfl

/-- Configured defaults used as the concrete counterexample input for the
asPDF-defaulting claim: the process-wide default output kind is PDF. -/
def pNoPdf : ImageProcessor :=
  ⟨{ Width := 1920, Height := 1280, UserAgent := "webrender", Timeout := 10,
     Delay := 3, BrowserPath := "", BrowserKind := "chrome", AsPDF := true }⟩

/-- Request with every optional field missing (Go zero values), used as the
concrete counterexample input for the asPDF-defaulting claim. -/
def rNoPdf : ImageProcessorRequest :=
  { URL := "https://example.com", Kind := "", Width := 0, Height := 0,
    UserAgent := "", Timeout := 0, Delay := 0, AsPDF := false, Headers := [] }

/-- C6 counterexample: with the configured default `AsPDF = true` and a
request whose `asPDF` field is missing (decoded as `false`), the built browser
options carry `AsPDF = false` — the zero-valued boolean is passed through, not
replaced by the configured default, refuting the claim as stated. -/
theorem chromeImage_asPDF_not_defaulted :
    rNoPdf.AsPDF = false ∧ pNoPdf.options.AsPDF = true
    ∧ (pNoPdf.chromeImageOptions rNoPdf).AsPDF = false :=
  ⟨rfl, rfl, rfl⟩

/-- C6 amended: the numeric fields width, height, timeout and delay are
replaced by the corresponding configured default exactly when zero, and an
empty userAgent is replaced by the configured default; the boolean `asPDF` is
passed through from the request unchanged and the configured `AsPDF` default
is never applied. -/
theorem chromeImage_defaults (p : ImageProcessor) (r : ImageProcessorRequest) :
    ((p.chromeImageOptions r).Width = if r.Width = 0 then p.options.Width else r.Width)
    ∧ ((p.chromeImageOptions r).Height = if r.Height = 0 then p.options.Height else r.Height)
    ∧ ((p.chromeImageOptions r).Timeout = if r.Timeout = 0 then p.options.Timeout else r.Timeout)
    ∧ ((p.chromeImageOptions r).Delay = if r.Delay = 0 then p.options.Delay else r.Delay)
    ∧ ((p.chromeImageOptions r).UserAgent =
        if isEmptyString r.UserAgent then p.options.UserAgent else r.UserAgent)
    ∧ ((p.chromeImageOptions r).AsPDF = r.AsPDF) :=
  ⟨rfl, rfl, rfl, rfl, rfl, rfl⟩

/-- C1: if the primary run (navigate pipeline) fails with a deadline-exceeded
error, `Image` opens exactly one fallback attempt with a fresh deadline of the
same `Timeout` seconds running the navigate-false pipeline; if that fallback
run reports no error the captured record is returned with no error, and if it
reports an error, that fallback error — not the original timeout — is
returned. -/
theorem image_timeout_runs_one_fallback (c : ChromeBrowser) (url : String)
    (run : RunOracle) (e : RunError)
    (hprim : (run (c.buildTasks url true) c.options.Timeout ⟨[], ""⟩).2 = some e)
    (hdl : e.isDeadlineExceeded = true) :
    (c.Image url none run).2 =
      [⟨c.buildTasks url true, c.options.Timeout⟩,
       ⟨c.buildTasks url false, c.options.Timeout⟩]
    ∧ (c.Image url none run).1 =
      (match run (c.buildTasks url false) c.options.Timeout
          (run (c.buildTasks url true) c.options.Timeout ⟨[], ""⟩).1 with
       | (r2, none) => Except.ok r2
       | (_, some e2) => Except.error e2) := by
  rcases h1 : run (c.buildTasks url true) c.options.Timeout ⟨[], ""⟩ with ⟨r1, err1⟩
  rw [h1] at hprim
  simp only at hprim
  subst hprim
  rcases h2 : run (c.buildTasks url false) c.options.Timeout r1 with ⟨r2, err2⟩
  unfold ChromeBrowser.Image
  simp only [h1, h2, hdl, if_true]
  cases err2 <;> simp

/-- C5: any error of the primary run other than deadline-exceeded is returned
to the caller unchanged, and no fallback attempt is opened — the attempt trace
holds only the primary attempt. -/
theorem image_other_error_no_fallback (c : ChromeBrowser) (url : String)
    (run : RunOracle) (e : RunError)
    (hprim : (run (c.buildTasks url true) c.options.Timeout ⟨[], ""⟩).2 = some e)
    (hnd : e.isDeadlineExceeded = false) :
    (c.Image url none run).1 = Except.error e
    ∧ (c.Image url none run).2 = [⟨c.buildTasks url true, c.options.Timeout⟩] := by
  rcases h1 : run (c.buildTasks url true) c.options.Timeout ⟨[], ""⟩ with ⟨r1, err1⟩
  rw [h1] at hprim
  simp only at hprim
  subst hprim
  unfold ChromeBrowser.Image
  simp [h1, hnd]

/-- A browser record used as concrete input by several witnesses. -/
def cPlain : ChromeBrowser :=
  ⟨{ Width := 1024, Height := 768, UserAgent := "ua", JsCode := "",
     Timeout := 5, Delay := 0, FullPage := true, Path := "", Proxy := "",
     Headers := [], HeadersMap := [], ScreenshotCodes := [], AsPDF := false }⟩

/-- A browser record with a non-empty headers map, a script and a delay. -/
def cRich : ChromeBrowser :=
  ⟨{ Width := 1920, Height := 1280, UserAgent := "ua", JsCode := "1+1",
     Timeout := 10, Delay := 3, FullPage := false, Path := "", Proxy := "",
     Headers := [], HeadersMap := [("X-Token", "v")], ScreenshotCodes := [],
     AsPDF := false }⟩

/-- An oracle whose runs always end with the deadline-exceeded error. -/
def runAlwaysLate : RunOracle :=
  fun _ _ r => (r, some RunError.deadlineExceeded)

/-- An oracle whose runs always end with a non-timeout error. -/
def runAlwaysBroken : RunOracle :=
  fun _ _ r => (r, some (RunError.other 7))

/-- Witness for C1 at a concrete browser, url and oracle. -/
theorem image_timeout_runs_one_fallback_witness :
    (cPlain.Image "https://example.com" none runAlwaysLate).2 =
      [⟨cPlain.buildTasks "https://example.com" true, cPlain.options.Timeout⟩,
       ⟨cPlain.buildTasks "https://example.com" false, cPlain.options.Timeout⟩]
    ∧ (cPlain.Image "https://example.com" none runAlwaysLate).1 =
      (match runAlwaysLate (cPlain.buildTasks "https://example.com" false)
          cPlain.options.Timeout
          (runAlwaysLate (cPlain.buildTasks "https://example.com" true)
            cPlain.options.Timeout ⟨[], ""⟩).1 with
       | (r2, none) => Except.ok r2
       | (_, some e2) => Except.error e2) :=
  image_timeout_runs_one_fallback cPlain "https://example.com" runAlwaysLate
    RunError.deadlineExceeded rfl rfl

/-- Witness for C5 at a concrete browser, url and oracle. -/
theorem image_other_error_no_fallback_witness :
    (cPlain.Image "https://example.org" none runAlwaysBroken).1 =
      Except.error (RunError.other 7)
    ∧ (cPlain.Image "https://example.org" none runAlwaysBroken).2 =
      [⟨cPlain.buildTasks "https://example.org" true, cPlain.options.Timeout⟩] :=
  image_other_error_no_fallback cPlain "https://example.org" runAlwaysBroken
    (RunError.other 7) rfl rfl

/-- Witness for C3 at a concrete browser with navigate = false: the fallback
pipeline contains no navigation step. -/
theorem buildTasks_navigation_block_and_dom_witness :
    ActionStep.navigate "https://example.com" ∉ cRich.buildTasks "u" false :=
  ((buildTasks_navigation_block_and_dom cRich "u" false).2.1 rfl).1
    "https://example.com"

/-- Witness for C4 at a concrete browser with a non-empty headers map. -/
theorem buildTasks_header_steps_witness :
    cRich.options.HeadersMap ≠ []
    ∧ (cRich.buildTasks "u" true).take 2 =
      [ActionStep.enableHeaderInterception,
       ActionStep.setHeaders cRich.options.HeadersMap] :=
  ⟨by decide, (buildTasks_header_steps cRich "u" true).1 (by decide)⟩

/-- Processor-side options used as concrete input by the C8 witness. -/
def poDup : ChromeProcessorOptions :=
  { Width := 800, Height := 600, UserAgent := "ua", JsCode := "1+1",
    Timeout := 10, Delay := 2, FullPage := true, Path := "", Proxy := "",
    Headers := [], HeadersMap := [("A", "b")], ScreenshotCodes := [],
    AsPDF := false }

/-- Browser-side options with the same field values, for the C8 witness. -/
def boDup : ChromeBrowserOptions :=
  { Width := 800, Height := 600, UserAgent := "ua", JsCode := "1+1",
    Timeout := 10, Delay := 2, FullPage := true, Path := "", Proxy := "",
    Headers := [], HeadersMap := [("A", "b")], ScreenshotCodes := [],
    AsPDF := false }

/-- Witness for C8 at concrete equal-valued option records. -/
theorem buildTasks_duplicates_agree_witness :
    ChromeProcessor.buildTasks ⟨poDup⟩ "https://example.com" true =
      ChromeBrowser.buildTasks ⟨boDup⟩ "https://example.com" true :=
  buildTasks_duplicates_agree poDup boDup rfl rfl rfl rfl rfl
    "https://example.com" true

/-- Witness for C9 at a concrete processor and request with asPDF false. -/
theorem chromeImage_fullPage_always_true_witness :
    (pNoPdf.chromeImageOptions rNoPdf).FullPage = true
    ∧ (ChromeBrowser.buildTasks ⟨pNoPdf.chromeImageOptions rNoPdf⟩ "u" true).getLast? =
      some (ActionStep.captureScreenshot true) :=
  ⟨(chromeImage_fullPage_always_true pNoPdf rNoPdf "u" true).1,
   (chromeImage_fullPage_always_true pNoPdf rNoPdf "u" true).2.1 rfl⟩

/-- Witness for C2 at a concrete browser, url and navigate flag. -/
theorem buildTasks_ends_with_one_output_capture_witness :
    (cRich.buildTasks "u" true).getLast? =
      some (if cRich.options.AsPDF then ActionStep.capturePDF true
            else if cRich.options.FullPage then ActionStep.captureScreenshot true
            else ActionStep.captureScreenshot false)
    ∧ (cRich.buildTasks "u" true).countP (fun s => s.isOutputCapture) = 1 :=
  buildTasks_ends_with_one_output_capture cRich "u" true

/-- Witness for the amended C6 at a concrete processor and request. -/
theorem chromeImage_defaults_witness :
    ((pNoPdf.chromeImageOptions rNoPdf).Width =
      if rNoPdf.Width = 0 then pNoPdf.options.Width else rNoPdf.Width)
    ∧ ((pNoPdf.chromeImageOptions rNoPdf).Height =
      if rNoPdf.Height = 0 then pNoPdf.options.Height else rNoPdf.Height)
    ∧ ((pNoPdf.chromeImageOptions rNoPdf).Timeout =
      if rNoPdf.Timeout = 0 then pNoPdf.options.Timeout else rNoPdf.Timeout)
    ∧ ((pNoPdf.chromeImageOptions rNoPdf).Delay =
      if rNoPdf.Delay = 0 then pNoPdf.options.Delay else rNoPdf.Delay)
    ∧ ((pNoPdf.chromeImageOptions rNoPdf).UserAgent =
      if isEmptyString rNoPdf.UserAgent then pNoPdf.options.UserAgent
      else rNoPdf.UserAgent)
    ∧ ((pNoPdf.chromeImageOptions rNoPdf).AsPDF = rNoPdf.AsPDF) :=
  chromeImage_defaults pNoPdf rNoPdf

/-- Witness for C7 at a concrete request with an unrecognized kind. -/
theorem selectEngine_always_chrome_witness :
    ImageProcessor.selectEngine
      { URL := "https://example.com", Kind := "firefox", Width := 0,
        Height := 0, UserAgent := "", Timeout := 0, Delay := 0,
        AsPDF := false, Headers := [] } = Engine.chrome :=
  selectEngine_always_chrome _

/-- Witness for C10 at a concrete processor, request and script source. -/
theorem chromeImage_no_script_step_witness :
    ActionStep.evaluateScript "alert(1)" ∉
      ChromeBrowser.buildTasks ⟨pNoPdf.chromeImageOptions rNoPdf⟩ "u" true :=
  (chromeImage_no_script_step pNoPdf rNoPdf "u" true).2 "alert(1)"
